import Mathlib

/-!
Verification of the coco-healthcare-intelligence repository against its
natural-language specification.

Shallow embedding conventions:
- Python float arithmetic is modelled over the rationals.
- hashlib.sha256().hexdigest() is modelled as an arbitrary function
  sha256hex : String → String passed as a parameter; every chain property
  proved here holds uniformly in that function, exactly as the code's
  chain construction does not depend on the internals of SHA-256.
- A dict that the code only serializes (AuditEntry.details) is modelled by
  the string json.dumps would produce for it.
- Code that can raise (division by zero in batch_predict) returns Except.
-/

namespace Coco

/-! Embedding of src/coco/governance/audit_logger.py -/

/-- The non-hash fields of an audit entry (AuditEntry.__init__ arguments
except previous_hash); timestamp holds datetime.isoformat() output and
details holds the sorted-key JSON serialization of the sanitized dict. -/
structure AuditEntryFields where
  entry_id : String
  timestamp : String
  component : String
  operation : String
  actor : String
  details : String
  deriving DecidableEq

/-- Escaping json.dumps applies inside a JSON string literal. -/
def jsonEscapeChar (c : Char) : String :=
  if c = '\\' then "\\\\"
  else if c = '\"' then "\\\""
  else if c = '\n' then "\\n"
  else if c = '\r' then "\\r"
  else if c = '\t' then "\\t"
  else String.singleton c

def jsonEscape (s : String) : String :=
  String.join (s.data.map jsonEscapeChar)

def jsonStr (s : String) : String :=
  "\"" ++ jsonEscape s ++ "\""

/-- The json.dumps({...}, sort_keys=True) payload hashed by
AuditEntry._compute_hash; keys appear in sorted order: actor, component,
details, entry_id, operation, previous_hash, timestamp. -/
def entryContent (f : AuditEntryFields) (previous_hash : String) : String :=
  "\x7b\"actor\": " ++ jsonStr f.actor ++
  ", \"component\": " ++ jsonStr f.component ++
  ", \"details\": " ++ f.details ++
  ", \"entry_id\": " ++ jsonStr f.entry_id ++
  ", \"operation\": " ++ jsonStr f.operation ++
  ", \"previous_hash\": " ++ jsonStr previous_hash ++
  ", \"timestamp\": " ++ jsonStr f.timestamp ++ "\x7d"

/-- AuditEntry._compute_hash. -/
def computeHash (sha256hex : String → String) (f : AuditEntryFields)
    (previous_hash : String) : String :=
  sha256hex (entryContent f previous_hash)

/-- AuditEntry: stores the fields, the previous hash, and the hash computed
in __init__. -/
structure AuditEntry where
  fields : AuditEntryFields
  previous_hash : String
  hash : String
  deriving DecidableEq

/-- AuditEntry.__init__ (the hash is computed from the entry content). -/
def mkAuditEntry (sha256hex : String → String) (f : AuditEntryFields)
    (previous_hash : String) : AuditEntry :=
  ⟨f, previous_hash, computeHash sha256hex f previous_hash⟩

/-- AuditLogger._genesis_hash. -/
def genesisHash : String := "genesis_0000000000000000"

/-- AuditLogger._get_previous_hash over the class-level global chain. -/
def getPreviousHash (chain : List AuditEntry) : String :=
  match chain.getLast? with
  | some e => e.hash
  | none => genesisHash

/-- AuditLogger.log_operation restricted to its effect on the class-level
global chain: construct the entry with the previous hash of the chain and
append it. -/
def logOperation (sha256hex : String → String) (chain : List AuditEntry)
    (f : AuditEntryFields) : List AuditEntry :=
  chain ++ [mkAuditEntry sha256hex f (getPreviousHash chain)]

/-- A failure record produced by AuditLogger.verify_chain. -/
structure VerifyFailure where
  entry_id : String
  error : String
  position : Nat
  deriving DecidableEq

/-- The loop body of AuditLogger.verify_chain: for each position, check the
hash recomputation, then (for positions after the first) the linkage to the
physically preceding entry. -/
def verifyEntries (sha256hex : String → String) :
    Nat → Option AuditEntry → List AuditEntry → List VerifyFailure
  | _, _, [] => []
  | i, prev?, e :: rest =>
    (if e.hash = computeHash sha256hex e.fields e.previous_hash then []
     else [⟨e.fields.entry_id, "hash_mismatch", i⟩])
    ++ (match prev? with
        | some p =>
          if e.previous_hash = p.hash then []
          else [⟨e.fields.entry_id, "chain_break", i⟩]
        | none => [])
    ++ verifyEntries sha256hex (i + 1) (some e) rest

/-- The dict returned by AuditLogger.verify_chain (verified_at, a wall-clock
reading, is omitted). -/
structure VerifyResult where
  verified : Bool
  entries_checked : Nat
  failures : List VerifyFailure
  deriving DecidableEq

/-- AuditLogger.verify_chain. -/
def verifyChain (sha256hex : String → String) (chain : List AuditEntry) :
    VerifyResult :=
  let failures := verifyEntries sha256hex 0 none chain
  ⟨failures.length = 0, chain.length, failures⟩

/-- A sequence of log_operation calls starting from the empty global chain. -/
def buildChain (sha256hex : String → String) (ops : List AuditEntryFields) :
    List AuditEntry :=
  ops.foldl (logOperation sha256hex) []

/-! Embedding of the workflow-local audit chains
(CareGapWorkflow / ReadmissionWorkflow / SummarizationWorkflow
_generate_audit_hash and _add_audit_entry; the three copies are textually
identical). -/

/-- The inputs of one _add_audit_entry call: the uuid, the entry timestamp,
the operation string, str(details), and the datetime.utcnow().isoformat()
value read inside _generate_audit_hash (a second, separate clock reading). -/
structure WfOp where
  id : String
  ts : String
  operation : String
  details : String
  now : String
  deriving DecidableEq

/-- One dict appended to a workflow audit_chain by _add_audit_entry. -/
structure WfEntry where
  id : String
  ts : String
  operation : String
  details : String
  hash : String
  deriving DecidableEq

/-- The previous hash read by _generate_audit_hash:
audit_chain[-1]["hash"] if the chain is non-empty, else "genesis". -/
def wfPreviousHash (chain : List WfEntry) : String :=
  match chain.getLast? with
  | some e => e.hash
  | none => "genesis"

/-- CareGapWorkflow._generate_audit_hash:
sha256(f"previous_hash:str(data):utcnow").hexdigest()[:16]. -/
def wfGenerateAuditHash (sha256hex : String → String) (chain : List WfEntry)
    (details now : String) : String :=
  (sha256hex (wfPreviousHash chain ++ ":" ++ details ++ ":" ++ now)).take 16

/-- CareGapWorkflow._add_audit_entry. -/
def wfAddAuditEntry (sha256hex : String → String) (chain : List WfEntry)
    (o : WfOp) : List WfEntry :=
  chain ++ [⟨o.id, o.ts, o.operation, o.details,
            wfGenerateAuditHash sha256hex chain o.details o.now⟩]

/-- A sequence of _add_audit_entry calls from the empty workflow chain. -/
def buildWfChain (sha256hex : String → String) (ops : List WfOp) :
    List WfEntry :=
  ops.foldl (wfAddAuditEntry sha256hex) []

/-- Commitment invariant of a workflow chain relative to the call inputs:
each entry's hash is the truncated digest of the preceding entry's hash
(resp. "genesis"), its details, and the hashing-time clock reading. -/
def wfChainOk (sha256hex : String → String) :
    String → List WfEntry → List WfOp → Bool
  | _, [], [] => true
  | prev, e :: es, o :: os =>
    decide (e.hash = (sha256hex (prev ++ ":" ++ o.details ++ ":" ++ o.now)).take 16)
    && decide (e.details = o.details)
    && wfChainOk sha256hex e.hash es os
  | _, _, _ => false

/-! Invariants of the global audit chain. -/

/-- Hash-chain well-formedness of a list of audit entries relative to the
hash expected for its first entry: each entry records the running previous
hash and a hash recomputable from its own content. -/
def chainOk (sha256hex : String → String) :
    String → List AuditEntry → Bool
  | _, [] => true
  | prev, e :: rest =>
    decide (e.previous_hash = prev)
    && decide (e.hash = computeHash sha256hex e.fields e.previous_hash)
    && chainOk sha256hex e.hash rest

/-- Generalization of getPreviousHash to an arbitrary base hash. -/
def prevHashOr (h0 : String) (chain : List AuditEntry) : String :=
  match chain.getLast? with
  | some e => e.hash
  | none => h0

/-- Shared concrete hash stand-in used by witnesses: an injective tagging
function standing in for SHA-256. -/
def shaEx : String → String := fun s => "sha256-of:" ++ s

def fieldsEx1 : AuditEntryFields :=
  ⟨"id-1", "2024-01-01T00:00:00", "care-gaps", "detect_care_gaps", "system", "\x7b\x7d"⟩

def fieldsEx2 : AuditEntryFields :=
  ⟨"id-2", "2024-01-01T00:00:01", "care-gaps", "close_care_gap", "system", "\x7b\x7d"⟩

def wfOpEx : WfOp :=
  ⟨"id-3", "2024-01-01T00:00:02", "detect_gaps_started", "\x7b\x7d", "2024-01-01T00:00:03"⟩

/-! Embedding of src/coco/workflows/readmission_workflow.py -/

inductive RiskTier where
  | low
  | medium
  | high
  | critical
  deriving DecidableEq

/-- The feature dict produced by ReadmissionWorkflow._fetch_features; the
numeric fields are rationals (Python floats/ints), the rest strings. The
string identity fields are carried so that one can state which fields the
model output depends on. -/
structure Features where
  patient_id : String
  encounter_id : String
  prior_admissions_12m : ℚ
  length_of_stay : ℚ
  charlson_comorbidity_index : ℚ
  ed_visits_6m : ℚ
  polypharmacy_count : ℚ
  discharge_disposition : String
  primary_diagnosis_category : String
  social_support_score : ℚ
  age : ℚ
  insurance_type : String
  feature_timestamp : String
  deriving DecidableEq

/-- The disposition_risk dict lookup with .get default 0.05. -/
def dispositionRisk (d : String) : ℚ :=
  if d = "home" then 0.0
  else if d = "home_health" then 0.05
  else if d = "snf" then 0.10
  else if d = "rehab" then 0.08
  else 0.05

/-- ReadmissionWorkflow._run_model_inference: accumulates base_risk exactly
as the source does, clamps to [0.02, 0.95], and derives the 95 percent
confidence interval from the margin formula. -/
def runModelInference (f : Features) : ℚ × (ℚ × ℚ) :=
  let base_risk : ℚ := 0.05
  let base_risk := base_risk + f.prior_admissions_12m * 0.08
  let base_risk := base_risk +
    (if f.length_of_stay > 7 then 0.10
     else if f.length_of_stay > 4 then 0.05 else 0)
  let base_risk := base_risk + f.charlson_comorbidity_index * 0.03
  let base_risk := base_risk + f.ed_visits_6m * 0.04
  let base_risk := base_risk +
    (if f.polypharmacy_count > 10 then 0.08
     else if f.polypharmacy_count > 5 then 0.04 else 0)
  let base_risk := base_risk + dispositionRisk f.discharge_disposition
  let base_risk := base_risk + (1 - f.social_support_score) * 0.08
  let base_risk := base_risk +
    (if f.age > 75 then 0.05 else if f.age > 65 then 0.02 else 0)
  let risk_score := min (max base_risk 0.02) 0.95
  let margin := 0.05 + 0.10 * (0.5 - |risk_score - 0.5|)
  let ci_lower := max 0 (risk_score - margin)
  let ci_upper := min 1 (risk_score + margin)
  (risk_score, (ci_lower, ci_upper))

/-- ReadmissionWorkflow._determine_risk_tier. -/
def determineRiskTier (risk_score : ℚ) : RiskTier :=
  if risk_score ≥ 0.6 then RiskTier.critical
  else if risk_score ≥ 0.4 then RiskTier.high
  else if risk_score ≥ 0.2 then RiskTier.medium
  else RiskTier.low

/-- A family of feature dicts that vary only in length_of_stay; every other
feature contributes a fixed amount (zero for all but polypharmacy_count = 3,
which also contributes zero, being at most 5). -/
def losFeatures (los : ℚ) : Features :=
  ⟨"P1", "E1", 0, los, 0, 0, 3, "home", "copd", 1, 50, "medicare", "t"⟩

/-- Per-feature contribution of prior_admissions_12m (linear). -/
def priorAdmissionsTerm (x : ℚ) : ℚ := x * 0.08

/-- Per-feature contribution of length_of_stay (threshold step). -/
def lengthOfStayTerm (x : ℚ) : ℚ :=
  if x > 7 then 0.10 else if x > 4 then 0.05 else 0

/-- Per-feature contribution of charlson_comorbidity_index (linear). -/
def charlsonTerm (x : ℚ) : ℚ := x * 0.03

/-- Per-feature contribution of ed_visits_6m (linear). -/
def edVisitsTerm (x : ℚ) : ℚ := x * 0.04

/-- Per-feature contribution of polypharmacy_count (threshold step). -/
def polypharmacyTerm (x : ℚ) : ℚ :=
  if x > 10 then 0.08 else if x > 5 then 0.04 else 0

/-- Per-feature contribution of social_support_score (linear in 1 - x). -/
def socialSupportTerm (x : ℚ) : ℚ := (1 - x) * 0.08

/-- Per-feature contribution of age (threshold step). -/
def ageTerm (x : ℚ) : ℚ :=
  if x > 75 then 0.05 else if x > 65 then 0.02 else 0

def featuresExA : Features :=
  ⟨"P-001", "E-001", 2, 5, 3, 1, 6, "snf", "heart_failure", 0.5, 70, "medicare", "ts-1"⟩

def featuresExB : Features :=
  ⟨"P-002", "E-002", 2, 5, 3, 1, 6, "snf", "heart_failure", 0.5, 70, "commercial", "ts-2"⟩

/-! Embedding of src/coco/workflows/care_gap_workflow.py (risk scoring and
cohort analysis). -/

inductive CareGapPriority where
  | critical
  | high
  | medium
  | low
  deriving DecidableEq

inductive CareGapType where
  | screening
  | vaccination
  | lab_test
  | medication
  | follow_up
  deriving DecidableEq

/-- The fields of a CareGap the scoring functions read (gap identity and
classification fields are kept; codes, dates and descriptions are not read
by _calculate_risk_score). -/
structure CareGap where
  gap_id : String
  type : CareGapType
  name : String
  priority : CareGapPriority
  estimated_impact : ℚ
  deriving DecidableEq

/-- The priority_weights dict of CareGapWorkflow._calculate_risk_score. -/
def priorityWeight : CareGapPriority → ℚ
  | CareGapPriority.critical => 1.0
  | CareGapPriority.high => 0.8
  | CareGapPriority.medium => 0.5
  | CareGapPriority.low => 0.2

/-- CareGapWorkflow._calculate_risk_score. -/
def calculateRiskScore (gaps : List CareGap) : ℚ :=
  if gaps = [] then 0
  else
    let weighted_sum :=
      (gaps.map (fun g => priorityWeight g.priority * g.estimated_impact)).sum
    let max_possible := (gaps.length : ℚ) * 1.0
    if max_possible > 0 then min (weighted_sum / max_possible) 1.0 else 0

def careGapEx : CareGap :=
  ⟨"gap-1", CareGapType.screening, "Colorectal Cancer Screening",
   CareGapPriority.high, 0.85⟩

/-- The summary fields of batch_predict the claim is about; predictions are
reduced to their risk scores. -/
structure BatchPredictionResponse where
  total_patients : Nat
  predictions : List ℚ
  average_risk_score : ℚ
  deriving DecidableEq

/-- ReadmissionWorkflow.batch_predict with the random feature fetch inside
predict_risk abstracted into a per-patient features oracle. Python computes
average_risk_score = sum(...) / len(predictions), which raises
ZeroDivisionError when predictions is empty; the fallible division is
modelled with Except. -/
def batchPredict (featuresFor : String → Features)
    (patient_ids : List String) : Except String BatchPredictionResponse :=
  let predictions :=
    patient_ids.map (fun pid => (runModelInference (featuresFor pid)).1)
  if predictions.length = 0 then Except.error "ZeroDivisionError"
  else Except.ok ⟨patient_ids.length, predictions,
    predictions.sum / (predictions.length : ℚ)⟩

/-- CareGapWorkflow.analyze_cohort reduced to its average_risk_score field,
with the per-patient detect_gaps risk score abstracted as an oracle:
total_risk / len(patient_ids) if patient_ids else 0.0. -/
def analyzeCohortAverageRisk (riskFor : String → ℚ)
    (patient_ids : List String) : ℚ :=
  let total_risk := (patient_ids.map riskFor).sum
  if patient_ids.isEmpty then 0
  else total_risk / (patient_ids.length : ℚ)

/-! Embedding of src/coco/workflows/summarization_workflow.py
(_generate_summary). -/

inductive SummaryType where
  | comprehensive
  | problem_focused
  | medication
  | lab_trend
  | care_transition
  deriving DecidableEq

/-- The COMPREHENSIVE template of _generate_summary. -/
def comprehensiveSummaryText : String :=
  "This 62-year-old patient has a medical history significant for Type 2 diabetes mellitus and essential hypertension, both of which are currently well-controlled on medication therapy. \n\n**Diabetes Management**: Recent HbA1c of 7.2% represents improvement from prior value of 7.8%. The patient continues on Metformin 1000mg twice daily with good tolerance. Glucose levels remain mildly elevated at 142 mg/dL but trending in the correct direction.\n\n**Cardiovascular**: Blood pressure control is adequate at 128-134/82-84 mmHg on Lisinopril 10mg daily. Lipid panel shows total cholesterol 185, LDL 98, HDL 52. The patient is on Atorvastatin 20mg for lipid management with good results.\n\n**Renal Function**: eGFR 72 mL/min indicates mild CKD Stage 2, likely related to diabetes and hypertension. Creatinine stable at 1.1 mg/dL.\n\n**Recent Imaging**: Chest X-ray unremarkable with no acute findings."

/-- The MEDICATION template of _generate_summary. -/
def medicationSummaryText : String :=
  "**Current Medication Regimen**:\n\n1. **Metformin 1000mg** - Take twice daily with meals (Diabetes)\n2. **Lisinopril 10mg** - Take once daily (Hypertension/Renal protection)\n3. **Atorvastatin 20mg** - Take once daily at bedtime (Hyperlipidemia)\n\nAll medications have been well-tolerated with good compliance reported. No significant drug interactions identified. Continue current regimen."

/-- The LAB_TREND template of _generate_summary. -/
def labTrendSummaryText : String :=
  "**Laboratory Trends**:\n\n- **HbA1c**: 7.2% (↓ from 7.8%) - Improving glycemic control\n- **Glucose**: 142 mg/dL (H) - Mildly elevated but improving\n- **Creatinine**: 1.1 mg/dL - Stable\n- **eGFR**: 72 mL/min - Mild CKD Stage 2, stable\n- **Total Cholesterol**: 185 mg/dL - At goal\n- **LDL**: 98 mg/dL - At goal (<100)\n- **HDL**: 52 mg/dL - Borderline\n- **Triglycerides**: 175 mg/dL - Mildly elevated"

/-- The fallback template of _generate_summary (all other summary types). -/
def defaultSummaryText : String :=
  "Patient with Type 2 diabetes and hypertension, both well-controlled. HbA1c improving at 7.2%. Blood pressure at goal. Continue current management."

/-- The enum switch of _generate_summary, stated separately from the
function so the refinement can be proved. -/
def selectSummaryTemplate : SummaryType → String
  | SummaryType.comprehensive => comprehensiveSummaryText
  | SummaryType.medication => medicationSummaryText
  | SummaryType.lab_trend => labTrendSummaryText
  | _ => defaultSummaryText

/-- SummarizationWorkflow._generate_summary: chooses a template by the
summary_type enum (the retrieved documents argument is never read) and
returns summary[:max_length * 4]. -/
def generateSummary {α : Type} (documents : List α)
    (summary_type : SummaryType) (max_length : Nat) : String :=
  (match summary_type with
   | SummaryType.comprehensive => comprehensiveSummaryText
   | SummaryType.medication => medicationSummaryText
   | SummaryType.lab_trend => labTrendSummaryText
   | _ => defaultSummaryText).take (max_length * 4)

/-! Embedding of the HTTP error paths (src/coco/api/main.py
global_exception_handler and src/coco/api/routers/care_gaps.py
detect_care_gaps). -/

structure HTTPExceptionModel where
  status_code : Nat
  detail : String
  deriving DecidableEq

/-- The try/except wrapper of the detect_care_gaps router handler: a
successful workflow result passes through; any exception e is re-raised as
HTTPException(status_code=500, detail=f"Care gap detection failed: e"). -/
def detectCareGapsResult {α : Type} (workflowResult : Except String α) :
    Except HTTPExceptionModel α :=
  match workflowResult with
  | Except.ok r => Except.ok r
  | Except.error e => Except.error ⟨500, "Care gap detection failed: " ++ e⟩

/-- The JSONResponse body returned by main.global_exception_handler.
request_id comes from the request header and timestamp from the clock,
both passed in; the exception string exc reaches only the structured log,
not the response body. -/
structure JsonErrorResponse where
  status_code : Nat
  error : String
  message : String
  request_id : String
  timestamp : String
  deriving DecidableEq

/-- main.global_exception_handler. -/
def globalExceptionHandler (exc request_id timestamp : String) :
    JsonErrorResponse :=
  ⟨500, "Internal server error", "An unexpected error occurred",
   request_id, timestamp⟩

/-! Embedding of src/coco/governance/phase_gates.py. -/

inductive GateType where
  | hjg
  | economic
  | irreversibility
  | ct
  deriving DecidableEq

inductive PhaseStatus where
  | not_started
  | in_progress
  | pending_review
  | approved
  | blocked
  deriving DecidableEq

/-- PhaseGate dataclass (exit_contract, approved_at and approved_by keep
their defaults, an empty contract and None, in every registry entry). -/
structure PhaseGate where
  phase_number : Nat
  phase_name : String
  quarter : String
  description : String
  gate_types : List GateType
  status : PhaseStatus
  evidence_pack_id : String
  required_artifacts : List String
  reviewers : List String
  deriving DecidableEq

/-- PhaseGateRegistry._initialize_gates: the dict of all 12 phase gates,
as an association list in the key order of the source. -/
def initializeGates : List (Nat × PhaseGate) := [
  (1, ⟨1, "Ontology", "Q1",
    "Define conceptual foundation - entities, relationships, boundaries",
    [GateType.hjg], PhaseStatus.approved, "PH1-EVID-1",
    ["Expert stakeholder map", "Concept glossary", "Relationship diagram",
     "Contested concept log"],
    ["Domain Lead", "Product"]⟩),
  (2, ⟨2, "Problem Space", "Q1",
    "Define boundaries, validate assumptions, stress-test problem definition",
    [GateType.hjg, GateType.irreversibility], PhaseStatus.approved, "PH2-EVID-1",
    ["Boundary stress tests", "Edge case matrix", "Scope validation results"],
    ["Tech Lead", "Product"]⟩),
  (3, ⟨3, "Discovery", "Q1",
    "Gather requirements from multiple perspectives",
    [GateType.hjg], PhaseStatus.approved, "PH3-EVID-1",
    ["Stakeholder interview notes", "Data inventory", "Regulatory constraint map"],
    ["Product", "Compliance"]⟩),
  (4, ⟨4, "Alignment & Design", "Q2",
    "Lock stakeholder alignment, design end-to-end architecture",
    [GateType.hjg, GateType.economic, GateType.irreversibility],
    PhaseStatus.approved, "PH4-EVID-1",
    ["Architecture ROI pack", "Stakeholder sign-off matrix", "Risk acceptance docs"],
    ["Exec Sponsor", "Finance"]⟩),
  (5, ⟨5, "Integration", "Q2",
    "Connect ML system to infrastructure, APIs, data sources",
    [GateType.hjg], PhaseStatus.approved, "PH5-EVID-1",
    ["IaC validation logs", "Schema version registry", "Security scan results"],
    ["Platform Lead", "Security"]⟩),
  (6, ⟨6, "Build", "Q2",
    "Construct model, pipelines, infrastructure with reproducibility",
    [GateType.hjg, GateType.ct], PhaseStatus.approved, "PH6-EVID-1",
    ["Baseline model metrics", "Telemetry contract", "Reproducibility proof"],
    ["ML Lead", "SRE"]⟩),
  (7, ⟨7, "Validation", "Q3",
    "Rigorous testing - functional, performance, fairness, security",
    [GateType.hjg], PhaseStatus.approved, "PH7-EVID-1",
    ["Test suite results", "Bias audit", "Red team report", "Pen test findings"],
    ["QA Lead", "Security"]⟩),
  (8, ⟨8, "Pre-Production", "Q3",
    "Staging environment, load testing, final sign-off",
    [GateType.hjg, GateType.economic, GateType.ct], PhaseStatus.approved,
    "PH8-EVID-1",
    ["Load test results", "Canary metrics", "Rollback verification",
     "Kill drill results"],
    ["SRE Lead", "Ops"]⟩),
  (9, ⟨9, "Hypercare", "Q3",
    "Intensive post-launch support, high-touch monitoring",
    [GateType.hjg], PhaseStatus.approved, "PH9-EVID-1",
    ["Launch checklist", "Escalation log", "Rapid iteration tracking"],
    ["Product", "Support Lead"]⟩),
  (10, ⟨10, "Production", "Q4",
    "Full production rollout with monitoring and scaling",
    [GateType.hjg], PhaseStatus.approved, "PH10-EVID-1",
    ["Deployment verification", "Autoscaling proof", "Rollback test results"],
    ["SRE", "Platform Lead"]⟩),
  (11, ⟨11, "Reliability", "Q4",
    "Establish operational excellence - observability, incident response",
    [GateType.hjg], PhaseStatus.in_progress, "PH11-EVID-1",
    ["Observability dashboard", "On-call rotation", "Decay detection baseline"],
    ["SRE Lead", "ML Lead"]⟩),
  (12, ⟨12, "Continuous Improvement", "Q4",
    "Automation, documentation, architecture reviews, ROI validation",
    [GateType.hjg, GateType.economic], PhaseStatus.not_started, "PH12-EVID-1",
    ["Automation inventory", "Knowledge transfer docs", "Next iteration brief"],
    ["Tech Lead", "Product"]⟩)]

/-- Stated from the claim: the quarter expected for each phase number
(Q1 for 1-3, Q2 for 4-6, Q3 for 7-9, Q4 for 10-12). -/
def expectedQuarter (n : Nat) : String :=
  if n ≤ 3 then "Q1" else if n ≤ 6 then "Q2" else if n ≤ 9 then "Q3" else "Q4"

/-! Embedding of src/coco/governance/cost_telemetry.py
(CostTelemetryContract). -/

/-- One entry of CostTelemetryContract.METRICS. -/
structure MetricConfig where
  owner : String
  refresh : String
  reviewed_by : String
  kill_trigger : String
  current_value : ℚ
  threshold : ℚ
  deriving DecidableEq

/-- CostTelemetryContract.METRICS as an association list in source order. -/
def METRICS : List (String × MetricConfig) := [
  ("cost_per_inference",
    ⟨"Engineering Manager", "Daily", "CTO + CFO", ">1.0× value for 2 months",
     0.0023, 0.05⟩),
  ("error_cost_per_month",
    ⟨"Product Manager", "Weekly", "Executive Review", ">$50K/month",
     8234.50, 50000.0⟩),
  ("human_review_cost_per_output",
    ⟨"Operations Lead", "Weekly", "Ops Review", ">30% of inference cost",
     0.0004, 0.015⟩),
  ("compute_cost_per_1k",
    ⟨"Platform Engineer", "Real-time", "Infra Review", ">2× baseline for 1 week",
     2.34, 4.68⟩),
  ("retraining_cost_per_cycle",
    ⟨"ML Engineer", "Per event", "ML Review", ">1 month of value",
     1250.0, 5000.0⟩),
  ("value_per_inference",
    ⟨"Business Analyst", "Monthly", "Exec Review", "<0.8× projected for 2 months",
     0.15, 0.12⟩)]

/-- The per-metric status computed inside get_contract_status:
is_healthy = current_value < threshold. -/
def metricHealthStatus (c : MetricConfig) : String :=
  if c.current_value < c.threshold then "healthy" else "warning"

/-- One entry of the metrics dict built by get_contract_status (the copied
config fields are omitted; status and headroom are the computed ones). -/
structure MetricStatusEntry where
  name : String
  status : String
  headroom : ℚ
  deriving DecidableEq

/-- CostTelemetryContract.get_contract_status reduced to its computed
fields: the per-metric statuses and the overall_status. -/
def getContractStatus (ms : List (String × MetricConfig)) :
    List MetricStatusEntry × String :=
  let entries := ms.map (fun m =>
    (⟨m.1, metricHealthStatus m.2,
      (m.2.threshold - m.2.current_value) / m.2.threshold⟩ : MetricStatusEntry))
  let all_healthy := ms.all (fun m => decide (m.2.current_value < m.2.threshold))
  (entries, if all_healthy then "healthy" else "warning")

/-- One trigger dict built by check_kill_criteria. -/
structure KillTrigger where
  metric : String
  current : ℚ
  threshold : ℚ
  owner : String
  action_required : String
  deriving DecidableEq

/-- CostTelemetryContract.check_kill_criteria: (kill_triggered, triggers),
with a trigger for every metric whose current_value ≥ threshold. -/
def checkKillCriteria (ms : List (String × MetricConfig)) :
    Bool × List KillTrigger :=
  let triggers := ms.filterMap (fun m =>
    if m.2.current_value ≥ m.2.threshold then
      some ⟨m.1, m.2.current_value, m.2.threshold, m.2.owner, m.2.kill_trigger⟩
    else none)
  (decide (triggers.length > 0), triggers)

/-! Lemmas and theorems. -/

lemma getPreviousHash_eq_prevHashOr (chain : List AuditEntry) :
    getPreviousHash chain = prevHashOr genesisHash chain := by
  cases h : chain.getLast? <;> simp [getPreviousHash, prevHashOr, h]

lemma prevHashOr_cons (h0 : String) (e : AuditEntry) (rest : List AuditEntry) :
    prevHashOr h0 (e :: rest) = prevHashOr e.hash rest := by
  cases rest with
  | nil => simp [prevHashOr]
  | cons x xs =>
    simp only [prevHashOr, List.getLast?_cons_cons]
    rw [List.getLast?_eq_getLast (x :: xs) (by simp)]

lemma chainOk_append (sha256hex : String → String) (f : AuditEntryFields) :
    ∀ (ch : List AuditEntry) (h0 : String), chainOk sha256hex h0 ch = true →
      chainOk sha256hex h0
        (ch ++ [mkAuditEntry sha256hex f (prevHashOr h0 ch)]) = true := by
  intro ch
  induction ch with
  | nil =>
    intro h0 _
    simp [chainOk, prevHashOr, mkAuditEntry]
  | cons e rest ih =>
    intro h0 hok
    simp only [chainOk, Bool.and_eq_true, decide_eq_true_eq] at hok
    simp only [List.cons_append, chainOk, Bool.and_eq_true, decide_eq_true_eq]
    refine ⟨⟨hok.1.1, hok.1.2⟩, ?_⟩
    rw [prevHashOr_cons]
    exact ih e.hash hok.2

lemma chainOk_logOperation (sha256hex : String → String)
    (ch : List AuditEntry) (f : AuditEntryFields)
    (h : chainOk sha256hex genesisHash ch = true) :
    chainOk sha256hex genesisHash (logOperation sha256hex ch f) = true := by
  rw [logOperation, getPreviousHash_eq_prevHashOr]
  exact chainOk_append sha256hex f ch genesisHash h

lemma buildChain_chainOk (sha256hex : String → String)
    (ops : List AuditEntryFields) :
    chainOk sha256hex genesisHash (buildChain sha256hex ops) = true := by
  induction ops using List.reverseRecOn with
  | nil => rfl
  | append_singleton l f ih =>
    rw [buildChain, List.foldl_append, List.foldl_cons, List.foldl_nil]
    exact chainOk_logOperation sha256hex (buildChain sha256hex l) f ih

lemma chainOk_commit (sha256hex : String → String) :
    ∀ (ch : List AuditEntry) (h0 : String), chainOk sha256hex h0 ch = true →
      ∀ e ∈ ch, e.hash = computeHash sha256hex e.fields e.previous_hash := by
  intro ch
  induction ch with
  | nil => intro h0 _ e he; cases he
  | cons x rest ih =>
    intro h0 hok e he
    simp only [chainOk, Bool.and_eq_true, decide_eq_true_eq] at hok
    rcases List.mem_cons.mp he with he | he
    · exact he ▸ hok.1.2
    · exact ih x.hash hok.2 e he

lemma chainOk_head (sha256hex : String → String) :
    ∀ (ch : List AuditEntry) (h0 : String) (e : AuditEntry),
      chainOk sha256hex h0 ch = true → ch.head? = some e →
      e.previous_hash = h0 := by
  intro ch h0 e hok hhead
  cases ch with
  | nil => cases hhead
  | cons x rest =>
    simp only [List.head?_cons, Option.some.injEq] at hhead
    simp only [chainOk, Bool.and_eq_true, decide_eq_true_eq] at hok
    exact hhead ▸ hok.1.1

lemma chainOk_linked (sha256hex : String → String) :
    ∀ (ch : List AuditEntry) (h0 : String), chainOk sha256hex h0 ch = true →
      ch.Chain' (fun a b => b.previous_hash = a.hash) := by
  intro ch
  induction ch with
  | nil => intro h0 _; exact List.chain'_nil
  | cons x rest ih =>
    intro h0 hok
    simp only [chainOk, Bool.and_eq_true, decide_eq_true_eq] at hok
    refine List.chain'_cons'.mpr ⟨?_, ih x.hash hok.2⟩
    intro y hy
    exact chainOk_head sha256hex rest x.hash y hok.2 hy

lemma chainOk_verifyEntries (sha256hex : String → String) :
    ∀ (ch : List AuditEntry) (h0 : String) (i : Nat) (prev? : Option AuditEntry),
      chainOk sha256hex h0 ch = true →
      (∀ p, prev? = some p → p.hash = h0) →
      verifyEntries sha256hex i prev? ch = [] := by
  intro ch
  induction ch with
  | nil => intro h0 i prev? _ _; rfl
  | cons e rest ih =>
    intro h0 i prev? hok hprev
    simp only [chainOk, Bool.and_eq_true, decide_eq_true_eq] at hok
    have hhash : e.hash = computeHash sha256hex e.fields e.previous_hash := hok.1.2
    have hrec : verifyEntries sha256hex (i + 1) (some e) rest = [] :=
      ih e.hash (i + 1) (some e) hok.2 (by intro p hp; cases hp; rfl)
    cases hp : prev? with
    | none => simp [verifyEntries, hhash, hrec]
    | some p =>
      have : e.previous_hash = p.hash := by rw [hprev p hp, hok.1.1]
      simp [verifyEntries, hhash, hrec, this]

lemma wfChainOk_append (sha256hex : String → String) (o : WfOp) :
    ∀ (ch : List WfEntry) (ops : List WfOp) (h0 : String),
      wfChainOk sha256hex h0 ch ops = true →
      wfChainOk sha256hex h0
        (ch ++ [⟨o.id, o.ts, o.operation, o.details,
          (sha256hex ((match ch.getLast? with
              | some e => e.hash
              | none => h0) ++ ":" ++ o.details ++ ":" ++ o.now)).take 16⟩])
        (ops ++ [o]) = true := by
  intro ch
  induction ch with
  | nil =>
    intro ops h0 hok
    cases ops with
    | nil => simp [wfChainOk]
    | cons o' os => simp [wfChainOk] at hok
  | cons e es ih =>
    intro ops h0 hok
    cases ops with
    | nil => simp [wfChainOk] at hok
    | cons o' os =>
      simp only [wfChainOk, Bool.and_eq_true, decide_eq_true_eq] at hok
      simp only [List.cons_append, wfChainOk, Bool.and_eq_true, decide_eq_true_eq]
      refine ⟨⟨hok.1.1, hok.1.2⟩, ?_⟩
      have := ih os e.hash hok.2
      cases es with
      | nil => simpa using this
      | cons x xs => simpa [List.getLast?_cons_cons] using this

lemma buildWfChain_ok (sha256hex : String → String) (ops : List WfOp) :
    wfChainOk sha256hex "genesis" (buildWfChain sha256hex ops) ops = true := by
  induction ops using List.reverseRecOn with
  | nil => rfl
  | append_singleton l o ih =>
    rw [buildWfChain, List.foldl_append, List.foldl_cons, List.foldl_nil]
    have := wfChainOk_append sha256hex o (buildWfChain sha256hex l) l "genesis" ih
    simpa [wfAddAuditEntry, wfGenerateAuditHash, wfPreviousHash] using this

/-- C1 counterexample: the workflow-local hash does NOT commit to all of the
entry's own fields. Two _add_audit_entry calls that differ only in the
operation field produce entries with identical hashes (the hash input
contains only the previous hash, str(details) and a clock reading), so the
claimed commitment property fails for the workflow chains. -/
theorem wfHashIgnoresOperationField :
    (buildWfChain shaEx [⟨"id-1", "t1", "operation_a", "d", "n"⟩]).map WfEntry.hash
      = (buildWfChain shaEx [⟨"id-1", "t1", "operation_b", "d", "n"⟩]).map WfEntry.hash
    ∧ buildWfChain shaEx [⟨"id-1", "t1", "operation_a", "d", "n"⟩]
      ≠ buildWfChain shaEx [⟨"id-1", "t1", "operation_b", "d", "n"⟩] := by
  constructor
  · rfl
  · decide

/-- C1 (amended): for every hash function and every sequence of
log_operation calls on the class-level global chain, each entry's hash is
the digest of the sorted-key JSON of its own fields together with its
previous_hash, each previous_hash is the hash of the physically preceding
entry (the genesis constant for the first), and verify_chain reports
verified with no failures; the workflow-local chains built by
_add_audit_entry satisfy the weaker commitment in which each 16-character
truncated hash commits to the previous entry's hash (genesis for the
first), the entry's details, and the hashing-time clock reading. -/
theorem auditChainIntegrity (sha256hex : String → String)
    (ops : List AuditEntryFields) (wfops : List WfOp) :
    (∀ e ∈ buildChain sha256hex ops,
        e.hash = computeHash sha256hex e.fields e.previous_hash) ∧
    (∀ e, (buildChain sha256hex ops).head? = some e →
        e.previous_hash = genesisHash) ∧
    (buildChain sha256hex ops).Chain' (fun a b => b.previous_hash = a.hash) ∧
    verifyChain sha256hex (buildChain sha256hex ops) =
      ⟨true, (buildChain sha256hex ops).length, []⟩ ∧
    wfChainOk sha256hex "genesis" (buildWfChain sha256hex wfops) wfops = true := by
  have h := buildChain_chainOk sha256hex ops
  refine ⟨chainOk_commit sha256hex _ _ h,
    fun e => chainOk_head sha256hex _ _ e h,
    chainOk_linked sha256hex _ _ h, ?_, buildWfChain_ok sha256hex wfops⟩
  have hf := chainOk_verifyEntries sha256hex (buildChain sha256hex ops)
    genesisHash 0 none h (by intro p hp; cases hp)
  simp [verifyChain, hf]

/-- Witness for auditChainIntegrity at a concrete two-operation history. -/
theorem auditChainIntegrity_witness :
    verifyChain shaEx (buildChain shaEx [fieldsEx1, fieldsEx2]) =
      ⟨true, (buildChain shaEx [fieldsEx1, fieldsEx2]).length, []⟩ ∧
    (mkAuditEntry shaEx fieldsEx1 genesisHash).previous_hash = genesisHash := by
  have h := auditChainIntegrity shaEx [fieldsEx1, fieldsEx2] [wfOpEx]
  exact ⟨h.2.2.2.1, h.2.1 (mkAuditEntry shaEx fieldsEx1 genesisHash) rfl⟩

/-- C2: log_operation leaves every previously appended entry of the global
chain unchanged (same fields and same hash, compared positionally) and
extends it by exactly one entry; likewise _add_audit_entry on a workflow
audit_chain. -/
theorem auditLogAppendOnly (sha256hex : String → String)
    (chain : List AuditEntry) (f : AuditEntryFields)
    (wfchain : List WfEntry) (o : WfOp) (i j : Nat)
    (hi : i < chain.length) (hj : j < wfchain.length) :
    (logOperation sha256hex chain f).length = chain.length + 1 ∧
    (logOperation sha256hex chain f)[i]? = chain[i]? ∧
    (wfAddAuditEntry sha256hex wfchain o).length = wfchain.length + 1 ∧
    (wfAddAuditEntry sha256hex wfchain o)[j]? = wfchain[j]? := by
  refine ⟨by simp [logOperation], ?_, by simp [wfAddAuditEntry], ?_⟩
  · rw [logOperation, List.getElem?_append, if_pos hi]
  · rw [wfAddAuditEntry, List.getElem?_append, if_pos hj]

/-- Witness for auditLogAppendOnly on concrete one-entry chains. -/
theorem auditLogAppendOnly_witness :
    (logOperation shaEx (buildChain shaEx [fieldsEx1]) fieldsEx2).length
      = (buildChain shaEx [fieldsEx1]).length + 1 ∧
    (logOperation shaEx (buildChain shaEx [fieldsEx1]) fieldsEx2)[0]?
      = (buildChain shaEx [fieldsEx1])[0]? ∧
    (wfAddAuditEntry shaEx (buildWfChain shaEx [wfOpEx]) wfOpEx)[0]?
      = (buildWfChain shaEx [wfOpEx])[0]? := by
  have h := auditLogAppendOnly shaEx (buildChain shaEx [fieldsEx1]) fieldsEx2
    (buildWfChain shaEx [wfOpEx]) wfOpEx 0 0 (by decide) (by decide)
  exact ⟨h.1, h.2.1, h.2.2.2⟩

lemma clampAffineContra (a w lo hi : ℚ)
    (h4 : min (max (a + w * 4) lo) hi = 0.05)
    (h5 : min (max (a + w * 5) lo) hi = 0.10)
    (h7 : min (max (a + w * 7) lo) hi = 0.10)
    (h8 : min (max (a + w * 8) lo) hi = 0.15) : False := by
  have hhi : (0.15 : ℚ) ≤ hi := by
    rcases min_eq_iff.mp h8 with ⟨h, hle⟩ | ⟨h, hle⟩ <;> linarith
  have hlo : lo ≤ 0.05 := by
    by_contra hcon
    push_neg at hcon
    have h1 : (0.05 : ℚ) < max (a + w * 4) lo :=
      lt_of_lt_of_le hcon (le_max_right _ _)
    have h2 : (0.05 : ℚ) < hi := by linarith
    have h3 := lt_min h1 h2
    rw [h4] at h3
    exact lt_irrefl _ h3
  have h5u : max (a + w * 5) lo = 0.10 := by
    rcases min_eq_iff.mp h5 with ⟨h, _⟩ | ⟨h, _⟩
    · exact h
    · linarith
  have e5 : a + w * 5 = 0.10 := by
    rcases max_eq_iff.mp h5u with ⟨h, _⟩ | ⟨h, _⟩
    · exact h
    · linarith
  have h7u : max (a + w * 7) lo = 0.10 := by
    rcases min_eq_iff.mp h7 with ⟨h, _⟩ | ⟨h, _⟩
    · exact h
    · linarith
  have e7 : a + w * 7 = 0.10 := by
    rcases max_eq_iff.mp h7u with ⟨h, _⟩ | ⟨h, _⟩
    · exact h
    · linarith
  have hw : w = 0 := by linarith
  have hx : a + w * 4 = 0.10 := by rw [hw] at e5 ⊢; linarith
  rw [hx, max_eq_left (by linarith), min_eq_left (by linarith)] at h4
  norm_num at h4

/-- C4 counterexample: the risk score is NOT a clamped affine function
base + Σ(feature × constant) of the feature values. Along the concrete
family losFeatures the score takes values 0.05, 0.10, 0.10, 0.15 at
length_of_stay 4, 5, 7, 8, which no clamped affine function can produce. -/
theorem riskModelNotAffineInFeatures :
    ¬ ∃ (base lo hi w₁ w₂ w₃ w₄ w₅ w₆ w₇ : ℚ) (g : String → ℚ),
      ∀ f : Features,
        (runModelInference f).1 =
          min (max (base + w₁ * f.prior_admissions_12m + w₂ * f.length_of_stay
            + w₃ * f.charlson_comorbidity_index + w₄ * f.ed_visits_6m
            + w₅ * f.polypharmacy_count + w₆ * f.social_support_score
            + w₇ * f.age + g f.discharge_disposition) lo) hi := by
  rintro ⟨base, lo, hi, w₁, w₂, w₃, w₄, w₅, w₆, w₇, g, h⟩
  have l4 : (runModelInference (losFeatures 4)).1 = 0.05 := by
    norm_num [runModelInference, losFeatures, dispositionRisk]
  have l5 : (runModelInference (losFeatures 5)).1 = 0.10 := by
    norm_num [runModelInference, losFeatures, dispositionRisk]
  have l7 : (runModelInference (losFeatures 7)).1 = 0.10 := by
    norm_num [runModelInference, losFeatures, dispositionRisk]
  have l8 : (runModelInference (losFeatures 8)).1 = 0.15 := by
    norm_num [runModelInference, losFeatures, dispositionRisk]
  have h4 := h (losFeatures 4); rw [l4] at h4; simp only [losFeatures] at h4
  have h5 := h (losFeatures 5); rw [l5] at h5; simp only [losFeatures] at h5
  have h7 := h (losFeatures 7); rw [l7] at h7; simp only [losFeatures] at h7
  have h8 := h (losFeatures 8); rw [l8] at h8; simp only [losFeatures] at h8
  refine clampAffineContra
    (base + w₁ * 0 + w₃ * 0 + w₄ * 0 + w₅ * 3 + w₆ * 1 + w₇ * 50 + g "home")
    w₂ lo hi ?_ ?_ ?_ ?_
  · rw [show base + w₁ * 0 + w₃ * 0 + w₄ * 0 + w₅ * 3 + w₆ * 1 + w₇ * 50
        + g "home" + w₂ * 4
        = base + w₁ * 0 + w₂ * 4 + w₃ * 0 + w₄ * 0 + w₅ * 3 + w₆ * 1
        + w₇ * 50 + g "home" from by ring]
    exact h4.symm
  · rw [show base + w₁ * 0 + w₃ * 0 + w₄ * 0 + w₅ * 3 + w₆ * 1 + w₇ * 50
        + g "home" + w₂ * 5
        = base + w₁ * 0 + w₂ * 5 + w₃ * 0 + w₄ * 0 + w₅ * 3 + w₆ * 1
        + w₇ * 50 + g "home" from by ring]
    exact h5.symm
  · rw [show base + w₁ * 0 + w₃ * 0 + w₄ * 0 + w₅ * 3 + w₆ * 1 + w₇ * 50
        + g "home" + w₂ * 7
        = base + w₁ * 0 + w₂ * 7 + w₃ * 0 + w₄ * 0 + w₅ * 3 + w₆ * 1
        + w₇ * 50 + g "home" from by ring]
    exact h7.symm
  · rw [show base + w₁ * 0 + w₃ * 0 + w₄ * 0 + w₅ * 3 + w₆ * 1 + w₇ * 50
        + g "home" + w₂ * 8
        = base + w₁ * 0 + w₂ * 8 + w₃ * 0 + w₄ * 0 + w₅ * 3 + w₆ * 1
        + w₇ * 50 + g "home" from by ring]
    exact h8.symm

/-- C4 (amended): the risk score is the base constant 0.05 plus a sum of
independent per-feature contributions, clamped to [0.02, 0.95]; the
contributions are linear (feature × constant) for prior admissions,
Charlson index and ED visits, linear in (1 - value) for social support, a
table lookup for discharge disposition, and piecewise-constant threshold
steps (not feature × constant) for length of stay, polypharmacy and age. -/
theorem riskModelPerFeatureSum (f : Features) :
    (runModelInference f).1 =
      min (max (0.05 + priorAdmissionsTerm f.prior_admissions_12m
        + lengthOfStayTerm f.length_of_stay
        + charlsonTerm f.charlson_comorbidity_index
        + edVisitsTerm f.ed_visits_6m
        + polypharmacyTerm f.polypharmacy_count
        + dispositionRisk f.discharge_disposition
        + socialSupportTerm f.social_support_score
        + ageTerm f.age) 0.02) 0.95 := rfl

/-- C8: the prediction is a deterministic function of the features. Any two
feature dicts that agree on the eight fields the model reads produce the
same risk score and the same confidence interval (in particular equal
inputs produce equal outputs), and equal risk scores produce equal tiers. -/
theorem inferenceDeterministic (f g : Features) (r s : ℚ)
    (h1 : f.prior_admissions_12m = g.prior_admissions_12m)
    (h2 : f.length_of_stay = g.length_of_stay)
    (h3 : f.charlson_comorbidity_index = g.charlson_comorbidity_index)
    (h4 : f.ed_visits_6m = g.ed_visits_6m)
    (h5 : f.polypharmacy_count = g.polypharmacy_count)
    (h6 : f.discharge_disposition = g.discharge_disposition)
    (h7 : f.social_support_score = g.social_support_score)
    (h8 : f.age = g.age)
    (hr : r = s) :
    runModelInference f = runModelInference g ∧
    determineRiskTier r = determineRiskTier s := by
  constructor
  · simp only [runModelInference, h1, h2, h3, h4, h5, h6, h7, h8]
  · rw [hr]

/-- Witness for inferenceDeterministic: two concrete feature dicts that
differ only in identity fields get identical predictions. -/
theorem inferenceDeterministic_witness :
    runModelInference featuresExA = runModelInference featuresExB ∧
    determineRiskTier 0.5 = determineRiskTier 0.5 :=
  inferenceDeterministic featuresExA featuresExB 0.5 0.5
    rfl rfl rfl rfl rfl rfl rfl rfl rfl

lemma runModelInference_shape (f : Features) :
    ∃ b : ℚ, runModelInference f =
      (min (max b 0.02) 0.95,
       (max 0 (min (max b 0.02) 0.95
          - (0.05 + 0.10 * (0.5 - |min (max b 0.02) 0.95 - 0.5|))),
        min 1 (min (max b 0.02) 0.95
          + (0.05 + 0.10 * (0.5 - |min (max b 0.02) 0.95 - 0.5|))))) :=
  ⟨_, rfl⟩

lemma runModelInference_bounds (f : Features) :
    0.02 ≤ (runModelInference f).1 ∧ (runModelInference f).1 ≤ 0.95 ∧
    0 ≤ (runModelInference f).2.1 ∧
    (runModelInference f).2.1 ≤ (runModelInference f).1 ∧
    (runModelInference f).1 ≤ (runModelInference f).2.2 ∧
    (runModelInference f).2.2 ≤ 1 := by
  obtain ⟨b, hb⟩ := runModelInference_shape f
  rw [hb]
  set r := min (max b 0.02) 0.95 with hr
  have hr1 : (0.02 : ℚ) ≤ r := le_min (le_max_right _ _) (by norm_num)
  have hr2 : r ≤ 0.95 := min_le_right _ _
  have habs : |r - 0.5| ≤ 0.48 := abs_le.mpr ⟨by linarith, by linarith⟩
  set m := 0.05 + 0.10 * (0.5 - |r - 0.5|) with hm
  have hm0 : (0 : ℚ) ≤ m := by
    rw [hm]; linarith
  refine ⟨hr1, hr2, le_max_left _ _, max_le ?_ ?_, le_min ?_ ?_, min_le_left _ _⟩
  · linarith
  · linarith
  · linarith
  · linarith

lemma priorityWeight_nonneg (p : CareGapPriority) : 0 ≤ priorityWeight p := by
  cases p <;> norm_num [priorityWeight]

lemma calculateRiskScore_bounds (gaps : List CareGap)
    (hg : ∀ g ∈ gaps, 0 ≤ g.estimated_impact) :
    0 ≤ calculateRiskScore gaps ∧ calculateRiskScore gaps ≤ 1 := by
  by_cases hempty : gaps = []
  · subst hempty; norm_num [calculateRiskScore]
  · have hn : (0 : ℚ) < (gaps.length : ℚ) * 1.0 := by
      have h1 : 0 < gaps.length := List.length_pos.mpr hempty
      have h2 : (0 : ℚ) < (gaps.length : ℚ) := by exact_mod_cast h1
      linarith
    have hws :
        0 ≤ (gaps.map (fun g => priorityWeight g.priority * g.estimated_impact)).sum := by
      apply List.sum_nonneg
      intro x hx
      obtain ⟨g, hgmem, rfl⟩ := List.mem_map.mp hx
      exact mul_nonneg (priorityWeight_nonneg _) (hg g hgmem)
    simp only [calculateRiskScore, if_neg hempty, if_pos hn]
    exact ⟨le_min (div_nonneg hws (le_of_lt hn)) (by norm_num),
      le_trans (min_le_right _ _) (by norm_num)⟩

/-- C3: the risk score returned by _run_model_inference lies in [0, 1] (in
fact in the clamp range [0.02, 0.95]) and its confidence interval satisfies
0 ≤ ci_lower ≤ risk_score ≤ ci_upper ≤ 1, for features in their generated
ranges; _calculate_risk_score maps any gap list with impacts in [0, 1] into
[0, 1] and returns exactly 0 on the empty list. -/
theorem responseScoresInRange (f : Features)
    (hp1 : 0 ≤ f.prior_admissions_12m) (hp2 : f.prior_admissions_12m ≤ 4)
    (hl1 : 2 ≤ f.length_of_stay) (hl2 : f.length_of_stay ≤ 14)
    (hc1 : 0 ≤ f.charlson_comorbidity_index) (hc2 : f.charlson_comorbidity_index ≤ 8)
    (he1 : 0 ≤ f.ed_visits_6m) (he2 : f.ed_visits_6m ≤ 6)
    (hm1 : 3 ≤ f.polypharmacy_count) (hm2 : f.polypharmacy_count ≤ 15)
    (hs1 : 0.3 ≤ f.social_support_score) (hs2 : f.social_support_score ≤ 1)
    (ha1 : 45 ≤ f.age) (ha2 : f.age ≤ 85)
    (gaps : List CareGap)
    (hg : ∀ g ∈ gaps, 0 ≤ g.estimated_impact ∧ g.estimated_impact ≤ 1) :
    (0 ≤ (runModelInference f).1 ∧ (runModelInference f).1 ≤ 1 ∧
     0.02 ≤ (runModelInference f).1 ∧ (runModelInference f).1 ≤ 0.95 ∧
     0 ≤ (runModelInference f).2.1 ∧
     (runModelInference f).2.1 ≤ (runModelInference f).1 ∧
     (runModelInference f).1 ≤ (runModelInference f).2.2 ∧
     (runModelInference f).2.2 ≤ 1) ∧
    (0 ≤ calculateRiskScore gaps ∧ calculateRiskScore gaps ≤ 1) ∧
    calculateRiskScore [] = 0 := by
  obtain ⟨hb1, hb2, hb3, hb4, hb5, hb6⟩ := runModelInference_bounds f
  obtain ⟨hc1, hc2⟩ := calculateRiskScore_bounds gaps (fun g hgm => (hg g hgm).1)
  exact ⟨⟨by linarith, by linarith, hb1, hb2, hb3, hb4, hb5, hb6⟩, ⟨hc1, hc2⟩, rfl⟩

/-- Witness for responseScoresInRange at concrete in-range features and a
one-gap list. -/
theorem responseScoresInRange_witness :
    (0 ≤ (runModelInference featuresExA).1 ∧ (runModelInference featuresExA).1 ≤ 1 ∧
     0.02 ≤ (runModelInference featuresExA).1 ∧ (runModelInference featuresExA).1 ≤ 0.95 ∧
     0 ≤ (runModelInference featuresExA).2.1 ∧
     (runModelInference featuresExA).2.1 ≤ (runModelInference featuresExA).1 ∧
     (runModelInference featuresExA).1 ≤ (runModelInference featuresExA).2.2 ∧
     (runModelInference featuresExA).2.2 ≤ 1) ∧
    (0 ≤ calculateRiskScore [careGapEx] ∧ calculateRiskScore [careGapEx] ≤ 1) ∧
    calculateRiskScore [] = 0 := by
  refine responseScoresInRange featuresExA ?_ ?_ ?_ ?_ ?_ ?_ ?_ ?_ ?_ ?_ ?_ ?_ ?_ ?_
    [careGapEx] ?_
  all_goals norm_num [featuresExA, careGapEx]

/-- C9: batch_predict on an empty patient list hits the division by zero in
average_risk_score (Except.error), while on any non-empty list it succeeds
with total_patients = len(patient_ids) and average_risk_score the
arithmetic mean of the returned risk scores; analyze_cohort instead guards
the empty cohort and returns 0. -/
theorem batchPredictRequiresNonEmpty (featuresFor : String → Features)
    (riskFor : String → ℚ) (patient_ids : List String)
    (h : patient_ids ≠ []) :
    batchPredict featuresFor [] = Except.error "ZeroDivisionError" ∧
    (∃ resp, batchPredict featuresFor patient_ids = Except.ok resp ∧
      resp.total_patients = patient_ids.length ∧
      resp.predictions.length = patient_ids.length ∧
      resp.average_risk_score
        = resp.predictions.sum / (resp.predictions.length : ℚ)) ∧
    analyzeCohortAverageRisk riskFor [] = 0 := by
  refine ⟨rfl, ?_, rfl⟩
  have hne :
      (patient_ids.map (fun pid => (runModelInference (featuresFor pid)).1)).length ≠ 0 := by
    rw [List.length_map]
    intro h0
    exact h (List.length_eq_zero.mp h0)
  refine ⟨⟨patient_ids.length,
    patient_ids.map (fun pid => (runModelInference (featuresFor pid)).1),
    (patient_ids.map (fun pid => (runModelInference (featuresFor pid)).1)).sum
      / ((patient_ids.map (fun pid => (runModelInference (featuresFor pid)).1)).length : ℚ)⟩,
    ?_, rfl, by rw [List.length_map], rfl⟩
  simp only [batchPredict]
  rw [if_neg hne]

/-- Witness for batchPredictRequiresNonEmpty on a concrete two-patient
list. -/
theorem batchPredictRequiresNonEmpty_witness :
    batchPredict (fun _ => featuresExA) [] = Except.error "ZeroDivisionError" ∧
    (∃ resp, batchPredict (fun _ => featuresExA) ["P-001", "P-002"] = Except.ok resp ∧
      resp.total_patients = (["P-001", "P-002"] : List String).length ∧
      resp.predictions.length = (["P-001", "P-002"] : List String).length ∧
      resp.average_risk_score
        = resp.predictions.sum / (resp.predictions.length : ℚ)) ∧
    analyzeCohortAverageRisk (fun _ => 0.5) [] = 0 :=
  batchPredictRequiresNonEmpty (fun _ => featuresExA) (fun _ => 0.5)
    ["P-001", "P-002"] (by decide)

set_option maxRecDepth 4000 in
/-- C5 counterexample: with max_length = 1 the result is the four-character
prefix of the comprehensive template, which is none of the four pre-written
template strings. -/
theorem summaryNotAlwaysFullTemplate :
    generateSummary ([] : List Unit) SummaryType.comprehensive 1
      ≠ comprehensiveSummaryText ∧
    generateSummary ([] : List Unit) SummaryType.comprehensive 1
      ≠ medicationSummaryText ∧
    generateSummary ([] : List Unit) SummaryType.comprehensive 1
      ≠ labTrendSummaryText ∧
    generateSummary ([] : List Unit) SummaryType.comprehensive 1
      ≠ defaultSummaryText := by
  refine ⟨?_, ?_, ?_, ?_⟩ <;> decide

/-- C5 (amended): _generate_summary returns the first max_length * 4
characters of one of exactly four pre-written templates; the template is
selected only by the summary_type enum value (COMPREHENSIVE, MEDICATION,
LAB_TREND, or the shared default), never by the retrieved documents, and
the whole template is returned whenever it fits the character budget. -/
theorem summaryIsTemplatePrefix (α β : Type) (documents : List α)
    (other_documents : List β) (summary_type : SummaryType) (max_length : Nat) :
    generateSummary documents summary_type max_length
      = (selectSummaryTemplate summary_type).take (max_length * 4) ∧
    generateSummary documents summary_type max_length
      = generateSummary other_documents summary_type max_length ∧
    (selectSummaryTemplate summary_type = comprehensiveSummaryText ∨
     selectSummaryTemplate summary_type = medicationSummaryText ∨
     selectSummaryTemplate summary_type = labTrendSummaryText ∨
     selectSummaryTemplate summary_type = defaultSummaryText) := by
  refine ⟨?_, ?_, ?_⟩
  · cases summary_type <;> rfl
  · cases summary_type <;> rfl
  · cases summary_type <;> simp [selectSummaryTemplate]

/-- C7 counterexample: two different workflow exceptions at the care-gap
endpoint produce different response messages, so the error message is not
independent of the particular exception. -/
theorem careGapErrorMessageDependsOnException :
    detectCareGapsResult (α := Unit) (Except.error "ValueError: bad feature")
      = Except.error ⟨500, "Care gap detection failed: ValueError: bad feature"⟩ ∧
    detectCareGapsResult (α := Unit) (Except.error "KeyError: age")
      = Except.error ⟨500, "Care gap detection failed: KeyError: age"⟩ ∧
    ("Care gap detection failed: ValueError: bad feature" : String)
      ≠ "Care gap detection failed: KeyError: age" :=
  ⟨rfl, rfl, by decide⟩

/-- C7 (amended): every workflow exception at the care-gap endpoint yields
HTTP status 500, with a detail message made of a fixed prefix followed by
the exception text (so the message does depend on the exception), while
exceptions reaching the global handler get status 500 with a fixed generic
error and message independent of the exception. -/
theorem clinicalEndpointErrorsReturn500 (α : Type) (e e₂ rid ts : String) (r : α) :
    detectCareGapsResult (α := α) (Except.error e)
      = Except.error ⟨500, "Care gap detection failed: " ++ e⟩ ∧
    detectCareGapsResult (α := α) (Except.ok r) = Except.ok r ∧
    globalExceptionHandler e rid ts = globalExceptionHandler e₂ rid ts ∧
    (globalExceptionHandler e rid ts).status_code = 500 ∧
    (globalExceptionHandler e rid ts).error = "Internal server error" ∧
    (globalExceptionHandler e rid ts).message = "An unexpected error occurred" :=
  ⟨rfl, rfl, rfl, rfl, rfl, rfl⟩

/-- C6: a fresh PhaseGateRegistry holds exactly the 12 gates keyed 1..12,
each gate's phase_number equals its key, and each gate's quarter matches
the claimed quarter mapping. -/
theorem phaseGateRegistryComplete :
    initializeGates.map Prod.fst = [1, 2, 3, 4, 5, 6, 7, 8, 9, 10, 11, 12] ∧
    ∀ p ∈ initializeGates,
      p.2.phase_number = p.1 ∧ p.2.quarter = expectedQuarter p.1 := by
  constructor
  · rfl
  · decide

lemma metricHealthStatus_healthy_iff (c : MetricConfig) :
    metricHealthStatus c = "healthy" ↔ c.current_value < c.threshold := by
  unfold metricHealthStatus
  by_cases h : c.current_value < c.threshold
  · simp [h]
  · rw [if_neg h]
    constructor
    · intro hh; exact absurd hh (by decide)
    · intro hh; exact absurd hh h

/-- C10: per metric, get_contract_status reports healthy exactly when
check_kill_criteria does not list the metric as a trigger (both reduce to
current_value < threshold, the boundary counting as triggered), and
overall_status is healthy exactly when kill_triggered is false. Metric
names are dict keys, hence pairwise distinct. -/
theorem contractStatusKillComplement (ms : List (String × MetricConfig))
    (hnodup : (ms.map Prod.fst).Nodup) :
    (∀ m ∈ ms, metricHealthStatus m.2 = "healthy" ↔
        m.1 ∉ (checkKillCriteria ms).2.map KillTrigger.metric) ∧
    (∀ m ∈ ms, metricHealthStatus m.2 = "healthy" ↔
        m.2.current_value < m.2.threshold) ∧
    ((getContractStatus ms).2 = "healthy" ↔ (checkKillCriteria ms).1 = false) := by
  refine ⟨?_, fun m _ => metricHealthStatus_healthy_iff m.2, ?_⟩
  · intro m hm
    rw [metricHealthStatus_healthy_iff]
    constructor
    · intro hlt hmem
      rw [List.mem_map] at hmem
      obtain ⟨t, ht, htname⟩ := hmem
      simp only [checkKillCriteria] at ht
      rw [List.mem_filterMap] at ht
      obtain ⟨p, hp, hfp⟩ := ht
      by_cases hge : p.2.current_value ≥ p.2.threshold
      · rw [if_pos hge] at hfp
        have ht' := Option.some.inj hfp
        have hpm : p.1 = m.1 := by rw [← htname, ← ht']
        have : p = m := List.inj_on_of_nodup_map hnodup hp hm hpm
        rw [this] at hge
        linarith
      · rw [if_neg hge] at hfp
        cases hfp
    · intro hnmem
      by_contra hlt
      push_neg at hlt
      apply hnmem
      rw [List.mem_map]
      refine ⟨⟨m.1, m.2.current_value, m.2.threshold, m.2.owner, m.2.kill_trigger⟩,
        ?_, rfl⟩
      simp only [checkKillCriteria]
      rw [List.mem_filterMap]
      exact ⟨m, hm, by rw [if_pos hlt]⟩
  · simp only [getContractStatus, checkKillCriteria]
    by_cases hall :
        ms.all (fun m => decide (m.2.current_value < m.2.threshold)) = true
    · rw [if_pos hall]
      constructor
      · intro _
        have hnil : ms.filterMap (fun m =>
            if m.2.current_value ≥ m.2.threshold then
              some (⟨m.1, m.2.current_value, m.2.threshold, m.2.owner,
                m.2.kill_trigger⟩ : KillTrigger)
            else none) = [] := by
          rw [List.filterMap_eq_nil_iff]
          intro p hp
          have hlt := of_decide_eq_true (List.all_eq_true.mp hall p hp)
          rw [if_neg (not_le.mpr hlt)]
        rw [hnil]
        decide
      · intro _; rfl
    · rw [if_neg hall]
      constructor
      · intro hh; exact absurd hh (by decide)
      · intro hfalse
        exfalso
        apply hall
        rw [List.all_eq_true]
        intro p hp
        rw [decide_eq_true_eq]
        by_contra hnlt
        push_neg at hnlt
        have hmem : (⟨p.1, p.2.current_value, p.2.threshold, p.2.owner,
            p.2.kill_trigger⟩ : KillTrigger) ∈ ms.filterMap (fun m =>
              if m.2.current_value ≥ m.2.threshold then
                some (⟨m.1, m.2.current_value, m.2.threshold, m.2.owner,
                  m.2.kill_trigger⟩ : KillTrigger)
              else none) := by
          rw [List.mem_filterMap]
          exact ⟨p, hp, by rw [if_pos hnlt]⟩
        have hlen := List.length_pos.mpr (List.ne_nil_of_mem hmem)
        rw [decide_eq_false_iff_not] at hfalse
        exact hfalse hlen

/-- Witness for contractStatusKillComplement at the concrete METRICS
table. -/
theorem contractStatusKillComplement_witness :
    (metricHealthStatus
        (⟨"Engineering Manager", "Daily", "CTO + CFO", ">1.0× value for 2 months",
          0.0023, 0.05⟩ : MetricConfig) = "healthy" ↔
      "cost_per_inference" ∉ (checkKillCriteria METRICS).2.map KillTrigger.metric) ∧
    ((getContractStatus METRICS).2 = "healthy" ↔
      (checkKillCriteria METRICS).1 = false) := by
  have h := contractStatusKillComplement METRICS (by decide)
  exact ⟨h.1 ("cost_per_inference",
    ⟨"Engineering Manager", "Daily", "CTO + CFO", ">1.0× value for 2 months",
     0.0023, 0.05⟩) (List.Mem.head _), h.2.2⟩

end Coco
